import Mathlib

/-!
Shallow embedding of `solarModel.py` and `sim.py` from the
residentialSolarModeling repository, together with proofs about the embedded
program.  Python floats are embedded as exact rationals, pandas/numpy column
operations as positional list operations, timestamps as hour indices of the
representative year, and fallible lookups (`dict[key]`, `.iloc[0]`) as
`Option`/`Except` values.
-/

namespace SolarModel

set_option maxRecDepth 8000

/-- A timestamped value series: `(time, value)` pairs, the time being the hour
index within the representative year. -/
abbrev Series := List (Nat × ℚ)

/-- `ssa_to_solar_pen` from `solarModel.py`: converts a solar set-aside
fraction to a market penetration rate using fixed reference-region constants. -/
def ssa_to_solar_pen (ssa : ℚ) : ℚ :=
  let st_sales : ℚ := 145580383000
  let region_pop : ℚ := 300286
  let st_pop : ℚ := 12801989
  let per_res : ℚ := 0.8
  let avg_consum : ℚ := 10402
  let num_houses : ℚ := 138058
  st_sales * (region_pop / st_pop) * ssa * per_res * (1 / avg_consum) * (1 / num_houses)

/-- `annual_penetration` from `sim.py`: one penetration value per year in
`0..time_horizon`, linearly interpolated between the converted end points. -/
def annual_penetration (initial_ssa final_ssa : ℚ) (time_horizon : Nat) : List ℚ :=
  let initial_pen := ssa_to_solar_pen initial_ssa
  let final_pen := ssa_to_solar_pen final_ssa
  (List.range (time_horizon + 1)).map
    (fun (year : Nat) =>
      (final_pen - initial_pen) / (time_horizon : ℚ) * (year : ℚ) + initial_pen)

/-- Columns of the simulation dataframe built by `simulation_data` in `sim.py`. -/
structure SimTable where
  year : List ℚ
  profit : List ℚ
  number_houses : List ℚ
  solar_houses : List ℚ
  demand : List ℚ
  price : List ℚ
deriving DecidableEq

/-- pandas columnwise division: a zero denominator yields the explicit
undefined marker `none` (pandas' NaN/inf results) instead of raising. -/
def pdiv (a b : ℚ) : Option ℚ := if b = 0 then none else some (a / b)

/-- The simulation dataframe after `calculate_impact` has appended the four
derived columns. -/
structure ImpactTable where
  year : List ℚ
  profit : List ℚ
  number_houses : List ℚ
  solar_houses : List ℚ
  demand : List ℚ
  price : List ℚ
  profit_loss : List ℚ
  fixed_increase_all_houses : List (Option ℚ)
  fixed_increase_solar_houses : List (Option ℚ)
  variable_increase : List (Option ℚ)
deriving DecidableEq

/-- `calculate_impact` from `sim.py`: lost profit since year 0 and the three
cost-recovery increases, computed columnwise. -/
def calculate_impact (t : SimTable) : ImpactTable :=
  let profit_loss := t.profit.map (fun p => t.profit.getD 0 0 - p)
  let fixed_increase_all_houses := List.zipWith pdiv profit_loss t.number_houses
  let fixed_increase_solar_houses := List.zipWith pdiv profit_loss t.solar_houses
  let variable_over_demand := List.zipWith pdiv profit_loss t.demand
  let variable_increase :=
    List.zipWith (fun o p => o.bind (fun x => pdiv x p)) variable_over_demand t.price
  ⟨t.year, t.profit, t.number_houses, t.solar_houses, t.demand, t.price,
    profit_loss, fixed_increase_all_houses, fixed_increase_solar_houses, variable_increase⟩

/-! ### Generic positional-access helper lemmas -/

theorem getD_zipWith {α β γ : Type} (f : α → β → γ) (da : α) (db : β) (dc : γ) :
    ∀ (xs : List α) (ys : List β) (i : Nat), i < (List.zipWith f xs ys).length →
      (List.zipWith f xs ys).getD i dc = f (xs.getD i da) (ys.getD i db) := by
  intro xs
  induction xs with
  | nil => intro ys i h; simp at h
  | cons x xs ih =>
    intro ys i h
    cases ys with
    | nil => simp at h
    | cons y ys =>
      cases i with
      | zero => rfl
      | succ n =>
        simp only [List.zipWith_cons_cons, List.getD_cons_succ] at h ⊢
        exact ih ys n (by simpa using h)

theorem getD_zip {α β : Type} (da : α) (db : β) (xs : List α) (ys : List β) (i : Nat)
    (h : i < (List.zip xs ys).length) :
    (List.zip xs ys).getD i (da, db) = (xs.getD i da, ys.getD i db) :=
  getD_zipWith Prod.mk da db (da, db) xs ys i h

theorem getD_map {α β : Type} (f : α → β) (da : α) (db : β) :
    ∀ (xs : List α) (i : Nat), i < xs.length →
      (xs.map f).getD i db = f (xs.getD i da) := by
  intro xs
  induction xs with
  | nil => intro i h; simp at h
  | cons x xs ih =>
    intro i h
    cases i with
    | zero => rfl
    | succ n =>
      simp only [List.map_cons, List.getD_cons_succ]
      exact ih n (by simpa using h)

theorem getD_replicate_self {α : Type} (a : α) : ∀ (n i : Nat),
    (List.replicate n a).getD i a = a := by
  intro n
  induction n with
  | zero => intro i; simp [List.getD]
  | succ n ih =>
    intro i
    cases i with
    | zero => rfl
    | succ j =>
      simp only [List.replicate_succ, List.getD_cons_succ]
      exact ih j

/-! ### Claim C4: the synthetic 3-year example for `calculate_impact` -/

/-- The synthetic 3-year input series from the spec's testable properties. -/
def impact_example : SimTable :=
  ⟨[0, 1, 2], [1000, 900, 850], [100, 100, 100], [0, 20, 40],
   [500, 480, 460], [0.1, 0.1, 0.1]⟩

/-- Claim C4: on the synthetic 3-year series with profits `[1000, 900, 850]`,
households `[100,100,100]`, solar houses `[0,20,40]`, demand `[500,480,460]`
and constant price `0.1`, `calculate_impact` yields
`profit_loss = [0,100,150]`, `fixed_increase_all_houses = [0, 1.0, 1.5]`,
`fixed_increase_solar_houses = [undefined, 5.0, 3.75]` and
`variable_increase = [0, 100/480/0.1, 150/460/0.1]`. -/
theorem calculate_impact_example :
    (calculate_impact impact_example).profit_loss = [0, 100, 150] ∧
    (calculate_impact impact_example).fixed_increase_all_houses
      = [some 0, some 1, some 1.5] ∧
    (calculate_impact impact_example).fixed_increase_solar_houses
      = [none, some 5, some 3.75] ∧
    (calculate_impact impact_example).variable_increase
      = [some 0, some (100 / 480 / 0.1), some (150 / 460 / 0.1)] := by
  with_unfolding_all decide

/-! ### Claim C5: a zero solar-house count never aborts `calculate_impact` -/

/-- Claim C5: for every input time series containing a year whose
`solar_houses` value is 0, `calculate_impact` still produces complete derived
columns (one entry per input year), and that year's
`fixed_increase_solar_houses` entry is the explicit undefined marker rather
than an exception. -/
theorem calculate_impact_zero_solar (t : SimTable) (y : Nat)
    (hy : y < t.profit.length)
    (hsl : t.solar_houses.length = t.profit.length)
    (hnl : t.number_houses.length = t.profit.length)
    (hdl : t.demand.length = t.profit.length)
    (hpl : t.price.length = t.profit.length)
    (hz : t.solar_houses.getD y 0 = 0) :
    (calculate_impact t).profit_loss.length = t.profit.length ∧
    (calculate_impact t).fixed_increase_all_houses.length = t.profit.length ∧
    (calculate_impact t).fixed_increase_solar_houses.length = t.profit.length ∧
    (calculate_impact t).variable_increase.length = t.profit.length ∧
    (calculate_impact t).fixed_increase_solar_houses.getD y (some 0) = none := by
  refine ⟨?_, ?_, ?_, ?_, ?_⟩
  · simp [calculate_impact]
  · simp [calculate_impact, List.length_zipWith, hsl, hnl]
  · simp [calculate_impact, List.length_zipWith, hsl]
  · simp [calculate_impact, List.length_zipWith, hdl, hpl]
  · have hlen : y < (List.zipWith pdiv
        (t.profit.map (fun p => t.profit.getD 0 0 - p)) t.solar_houses).length := by
      simp [List.length_zipWith, hsl, hy]
    have := getD_zipWith pdiv 0 0 (some 0)
      (t.profit.map (fun p => t.profit.getD 0 0 - p)) t.solar_houses y hlen
    simp only [calculate_impact]
    rw [this, hz]
    simp [pdiv]

/-- Witness for C5 at a concrete table whose year 0 has zero solar houses. -/
theorem calculate_impact_zero_solar_witness :
    (calculate_impact ⟨[0, 1], [50, 40], [10, 10], [0, 2], [7, 7], [2, 2]⟩).profit_loss.length = 2 ∧
    (calculate_impact ⟨[0, 1], [50, 40], [10, 10], [0, 2], [7, 7], [2, 2]⟩).fixed_increase_all_houses.length = 2 ∧
    (calculate_impact ⟨[0, 1], [50, 40], [10, 10], [0, 2], [7, 7], [2, 2]⟩).fixed_increase_solar_houses.length = 2 ∧
    (calculate_impact ⟨[0, 1], [50, 40], [10, 10], [0, 2], [7, 7], [2, 2]⟩).variable_increase.length = 2 ∧
    (calculate_impact ⟨[0, 1], [50, 40], [10, 10], [0, 2], [7, 7], [2, 2]⟩).fixed_increase_solar_houses.getD 0 (some 0) = none :=
  calculate_impact_zero_solar ⟨[0, 1], [50, 40], [10, 10], [0, 2], [7, 7], [2, 2]⟩ 0
    (by decide) (by decide) (by decide) (by decide) (by decide)
    (by with_unfolding_all decide)

/-! ### Claim C6: the penetration schedule -/

theorem annual_penetration_getD (i f : ℚ) (T y : Nat) (hy : y ≤ T) :
    (annual_penetration i f T).getD y 0 =
      (ssa_to_solar_pen f - ssa_to_solar_pen i) / (T : ℚ) * (y : ℚ) + ssa_to_solar_pen i := by
  have hlt : y < ((List.range (T + 1)).map
      (fun (year : Nat) => (ssa_to_solar_pen f - ssa_to_solar_pen i) / (T : ℚ) * (year : ℚ) +
        ssa_to_solar_pen i)).length := by
    rw [List.length_map, List.length_range]
    omega
  simp only [annual_penetration]
  rw [List.getD_eq_getElem _ _ hlt, List.getElem_map, List.getElem_range]

/-- Claim C6: for every `initial_ssa`, `final_ssa` and horizon `T ≥ 1`,
`annual_penetration` returns exactly `T+1` values; the value at year `y` is
`initial_pen + (final_pen - initial_pen) * y / T`; the first value is the
initial penetration, the last the final penetration, and the schedule is
non-decreasing whenever the final penetration is at least the initial one. -/
theorem annual_penetration_spec (initial_ssa final_ssa : ℚ) (T : Nat) (hT : 1 ≤ T) :
    (annual_penetration initial_ssa final_ssa T).length = T + 1 ∧
    (∀ y, y ≤ T → (annual_penetration initial_ssa final_ssa T).getD y 0 =
      ssa_to_solar_pen initial_ssa +
        (ssa_to_solar_pen final_ssa - ssa_to_solar_pen initial_ssa) * (y : ℚ) / (T : ℚ)) ∧
    (annual_penetration initial_ssa final_ssa T).getD 0 0 = ssa_to_solar_pen initial_ssa ∧
    (annual_penetration initial_ssa final_ssa T).getD T 0 = ssa_to_solar_pen final_ssa ∧
    (ssa_to_solar_pen initial_ssa ≤ ssa_to_solar_pen final_ssa →
      ∀ y1 y2, y1 ≤ y2 → y2 ≤ T →
        (annual_penetration initial_ssa final_ssa T).getD y1 0 ≤
          (annual_penetration initial_ssa final_ssa T).getD y2 0) := by
  have hT0 : (T : ℚ) ≠ 0 := Nat.cast_ne_zero.mpr (by omega)
  refine ⟨?_, ?_, ?_, ?_, ?_⟩
  · simp only [annual_penetration]
    rw [List.length_map, List.length_range]
  · intro y hy
    rw [annual_penetration_getD _ _ _ _ hy]
    ring
  · rw [annual_penetration_getD _ _ _ _ (Nat.zero_le T)]
    simp
  · rw [annual_penetration_getD _ _ _ _ (le_refl T)]
    rw [div_mul_cancel₀ _ hT0]
    ring
  · intro hle y1 y2 h12 h2T
    rw [annual_penetration_getD _ _ _ _ (le_trans h12 h2T),
      annual_penetration_getD _ _ _ _ h2T]
    have hnn : 0 ≤ (ssa_to_solar_pen final_ssa - ssa_to_solar_pen initial_ssa) / (T : ℚ) :=
      div_nonneg (sub_nonneg.mpr hle) (by positivity)
    have hcast : (y1 : ℚ) ≤ (y2 : ℚ) := by exact_mod_cast h12
    have := mul_le_mul_of_nonneg_left hcast hnn
    linarith

/-- Witness for C6 at `initial_ssa = 0`, `final_ssa = 1`, horizon 2. -/
theorem annual_penetration_spec_witness :
    (annual_penetration 0 1 2).length = 2 + 1 :=
  (annual_penetration_spec 0 1 2 (by norm_num)).1

/-! ### The House model from `solarModel.py` -/

/-- Locate the value stored at timestamp `t` in a series (unique-key pandas
row lookup used by the inner merge). -/
def lookup_time (t : Nat) (s : Series) : Option ℚ :=
  (s.find? (fun r => decide (r.1 = t))).map Prod.snd

/-- `pd.merge(left=usage, right=prod, how='inner', on='time')` for series with
unique timestamps: usage rows whose timestamp also occurs in the production
series, in left order, carrying both values. -/
def inner_merge (usage elec_prod : Series) : List (Nat × ℚ × ℚ) :=
  usage.filterMap (fun r =>
    match lookup_time r.1 elec_prod with
    | some p => some (r.1, r.2, p)
    | none => none)

/-- `House.get_elec_demand` from `solarModel.py`.  A solar house merges usage
with production, takes the difference and zeroes out non-positive values; a
non-solar house's demand is the usage series itself, unchanged. -/
def get_elec_demand (has_solar : Bool) (usage_data elec_prod : Series) : Series :=
  if has_solar then
    (inner_merge usage_data elec_prod).map
      (fun r => (r.1, if r.2.1 - r.2.2 ≤ 0 then 0 else r.2.1 - r.2.2))
  else
    usage_data

/-- A constructed House: its solar flag and derived net-demand series. -/
structure House where
  has_solar : Bool
  elec_demand : Series
deriving DecidableEq

/-- `House.__init__`: a house derives its demand from the shared usage series
and (when solar) the shared production series. -/
def mk_house (has_solar : Bool) (usage_data elec_prod : Series) : House :=
  ⟨has_solar, get_elec_demand has_solar usage_data elec_prod⟩

/-- Python `int()` truncates toward zero. -/
def py_int (q : ℚ) : Int := if 0 ≤ q then ⌊q⌋ else -⌊-q⌋

/-- `Region.create_households`: `int(num_houses * solar_pen)` solar houses
followed by the remaining non-solar houses, all sharing the Region's usage
series and the location-level production series. -/
def create_households (num_houses : Nat) (solar_pen : ℚ)
    (usage_data elec_prod : Series) : List House :=
  let solar_houses := py_int ((num_houses : ℚ) * solar_pen)
  let non_solar_houses := (num_houses : Int) - solar_houses
  (List.range solar_houses.toNat).map (fun _ => mk_house true usage_data elec_prod)
    ++ (List.range non_solar_houses.toNat).map (fun _ => mk_house false usage_data elec_prod)

/-! ### Claim C2: non-negativity of net demand (corrected) -/

/-- Counterexample to claim C2 as stated: a non-solar house built from a
usage series containing a negative value keeps that negative value as its
net demand at that hour, because the non-solar path applies no flooring. -/
theorem house_negative_demand_cex :
    get_elec_demand false [(0, -1)] [] = [(0, -1)] ∧ (-1 : ℚ) < 0 := by
  constructor
  · rfl
  · norm_num

/-- Claim C2 (amended): a solar house's net demand is usage minus production
floored at zero, hence non-negative at every hour; a non-solar house's net
demand is exactly its usage series, so it is non-negative at every hour
provided every usage value is non-negative (the code applies no flooring on
the non-solar path). -/
theorem house_demand_nonneg (has_solar : Bool) (usage_data elec_prod : Series)
    (husage : ∀ r ∈ usage_data, 0 ≤ r.2) :
    (∀ r ∈ get_elec_demand has_solar usage_data elec_prod, 0 ≤ r.2) ∧
    get_elec_demand true usage_data elec_prod =
      (inner_merge usage_data elec_prod).map (fun r => (r.1, max 0 (r.2.1 - r.2.2))) ∧
    get_elec_demand false usage_data elec_prod = usage_data := by
  have hmax : ∀ x : ℚ, (if x ≤ 0 then (0 : ℚ) else x) = max 0 x := by
    intro x
    by_cases hx : x ≤ 0
    · simp [hx, max_eq_left hx]
    · simp [hx, max_eq_right (le_of_not_le hx)]
  refine ⟨?_, ?_, rfl⟩
  · intro r hr
    cases has_solar with
    | false => exact husage r hr
    | true =>
      simp only [get_elec_demand, if_pos, List.mem_map] at hr
      obtain ⟨s, _, rfl⟩ := hr
      dsimp only
      split
      · exact le_refl 0
      · next hs => exact le_of_lt (not_le.mp hs)
  · simp only [get_elec_demand, if_pos]
    exact List.map_congr_left (fun r _ => by rw [hmax])

/-- Witness for the amended C2 at a concrete solar house whose production
exceeds its usage. -/
theorem house_demand_nonneg_witness :
    (∀ r ∈ get_elec_demand true [(0, 3), (1, 4)] [(0, 5)], 0 ≤ r.2) ∧
    get_elec_demand true [(0, 3), (1, 4)] [(0, 5)] =
      (inner_merge [(0, 3), (1, 4)] [(0, 5)]).map
        (fun r => (r.1, max 0 (r.2.1 - r.2.2))) ∧
    get_elec_demand false [(0, 3), (1, 4)] [(0, 5)] = [(0, 3), (1, 4)] :=
  house_demand_nonneg true [(0, 3), (1, 4)] [(0, 5)]
    (by
      intro r hr
      simp only [List.mem_cons, List.not_mem_nil, or_false] at hr
      rcases hr with rfl | rfl <;> norm_num)

/-! ### Claim C3: the deterministic solar / non-solar split -/

/-- Claim C3: for a household count `n` and a penetration fraction in `[0,1]`,
`create_households` creates exactly `⌊n * solar_pen⌋` solar houses, and
solar plus non-solar houses total exactly `n`. -/
theorem create_households_split (num_houses : Nat) (solar_pen : ℚ)
    (usage_data elec_prod : Series)
    (h0 : 0 ≤ solar_pen) (h1 : solar_pen ≤ 1) :
    ((create_households num_houses solar_pen usage_data elec_prod).filter
        (fun h => h.has_solar)).length
      = (⌊(num_houses : ℚ) * solar_pen⌋).toNat ∧
    (create_households num_houses solar_pen usage_data elec_prod).length = num_houses := by
  have hprod : 0 ≤ (num_houses : ℚ) * solar_pen :=
    mul_nonneg (by positivity) h0
  have hpy : py_int ((num_houses : ℚ) * solar_pen) = ⌊(num_houses : ℚ) * solar_pen⌋ := by
    simp [py_int, hprod]
  have hfl_nonneg : 0 ≤ ⌊(num_houses : ℚ) * solar_pen⌋ := Int.floor_nonneg.mpr hprod
  have hfl_le : ⌊(num_houses : ℚ) * solar_pen⌋ ≤ (num_houses : Int) := by
    have : (num_houses : ℚ) * solar_pen ≤ (num_houses : ℚ) := by
      calc (num_houses : ℚ) * solar_pen ≤ (num_houses : ℚ) * 1 := by
            exact mul_le_mul_of_nonneg_left h1 (by positivity)
        _ = (num_houses : ℚ) := mul_one _
    have h2 := Int.floor_le_floor this
    rwa [Int.floor_natCast] at h2
  constructor
  · simp only [create_households, hpy, List.filter_append, List.length_append]
    have htrue : List.filter (fun h => h.has_solar)
        ((List.range (⌊(num_houses : ℚ) * solar_pen⌋).toNat).map
          (fun _ => mk_house true usage_data elec_prod))
        = (List.range (⌊(num_houses : ℚ) * solar_pen⌋).toNat).map
          (fun _ => mk_house true usage_data elec_prod) := by
      rw [List.filter_eq_self]
      intro a ha
      rcases List.mem_map.mp ha with ⟨_, _, rfl⟩
      rfl
    have hfalse : List.filter (fun h => h.has_solar)
        ((List.range ((num_houses : Int) - ⌊(num_houses : ℚ) * solar_pen⌋).toNat).map
          (fun _ => mk_house false usage_data elec_prod)) = [] := by
      rw [List.filter_eq_nil_iff]
      intro a ha
      rcases List.mem_map.mp ha with ⟨_, _, rfl⟩
      simp [mk_house]
    rw [htrue, hfalse]
    simp
  · simp only [create_households, hpy, List.length_append, List.length_map,
      List.length_range]
    omega

/-- Witness for C3 with 10 houses at penetration 1/4: two solar houses,
ten houses in total. -/
theorem create_households_split_witness :
    ((create_households 10 (1/4) [(0, 1)] [(0, 1)]).filter
        (fun h => h.has_solar)).length = (⌊(10 : ℚ) * (1/4)⌋).toNat ∧
    (create_households 10 (1/4) [(0, 1)] [(0, 1)]).length = 10 :=
  create_households_split 10 (1/4) [(0, 1)] [(0, 1)] (by norm_num) (by norm_num)

/-! ### Wholesale price densification from `Region.get_wholesale_prices` -/

/-- The hourly timestamp grid produced by
`pd.date_range('1/1/2019', '1/1/2020', freq='H', closed='left')`:
8760 hour indices for the representative year. -/
def hour_grid : List Nat := List.range' 0 8760

/-- The row-filling loop of `Region.get_wholesale_prices`.  `ps` is the list
`trade_prices`, `ts` the sparse trade timestamps (a grid hour fails the
`nan_check` — i.e. the left merge hit a sparse row — exactly when the hour
occurs in `ts`), and `ct` is the running index `trade_price_ct`. -/
def fill_prices (ps : List ℚ) (ts : List Nat) : Nat → List Nat → List ℚ
  | _, [] => []
  | ct, h :: hs =>
    if h ∈ ts then
      if ct = ps.length - 1 then
        ps.getD ct 0 :: fill_prices ps ts ct hs
      else
        ps.getD (ct + 1) 0 :: fill_prices ps ts (ct + 1) hs
    else
      ps.getD ct 0 :: fill_prices ps ts ct hs

/-- `Region.get_wholesale_prices`, given the sparse supplier series already
filtered out of the wholesale file: the hourly series over the year's grid
whose prices come from the filling loop. -/
def get_wholesale_prices (pjm_time_price : Series) : Series :=
  let trade_prices := pjm_time_price.map Prod.snd
  let trade_times := pjm_time_price.map Prod.fst
  List.zip hour_grid (fill_prices trade_prices trade_times 0 hour_grid)

/-- Number of sparse timestamps at or before hour `h`. -/
def count_le (ts : List Nat) (h : Nat) : Nat :=
  (ts.filter (fun t => decide (t ≤ h))).length

/-- Number of sparse timestamps strictly before hour `h`. -/
def count_lt (ts : List Nat) (h : Nat) : Nat :=
  (ts.filter (fun t => decide (t < h))).length

theorem count_le_of_not_mem (ts : List Nat) (h : Nat) (hmem : h ∉ ts) :
    count_le ts h = count_lt ts h := by
  unfold count_le count_lt
  congr 1
  apply List.filter_congr
  intro t ht
  have : t ≠ h := fun he => hmem (he ▸ ht)
  simp only [decide_eq_decide]
  omega

theorem count_le_of_mem (ts : List Nat) (h : Nat)
    (hp : List.Pairwise (· < ·) ts) (hmem : h ∈ ts) :
    count_le ts h = count_lt ts h + 1 := by
  induction ts with
  | nil => cases hmem
  | cons a ts ih =>
    rw [List.pairwise_cons] at hp
    rcases List.mem_cons.mp hmem with rfl | hmem2
    · have h1 : (ts.filter (fun t => decide (t ≤ h))) = [] := by
        rw [List.filter_eq_nil_iff]
        intro t ht
        have := hp.1 t ht
        simp only [decide_eq_true_eq]
        omega
      have h2 : (ts.filter (fun t => decide (t < h))) = [] := by
        rw [List.filter_eq_nil_iff]
        intro t ht
        have := hp.1 t ht
        simp only [decide_eq_true_eq]
        omega
      simp [count_le, count_lt, List.filter_cons, h1, h2]
    · have hah : a < h := hp.1 h hmem2
      have h1 : decide (a ≤ h) = true := by simp; omega
      have h2 : decide (a < h) = true := by simp; omega
      simp only [count_le, count_lt, List.filter_cons, h1, h2, if_true,
        List.length_cons]
      have := ih hp.2 hmem2
      unfold count_le count_lt at this
      omega

theorem count_lt_zero (ts : List Nat) : count_lt ts 0 = 0 := by
  unfold count_lt
  rw [List.length_eq_zero, List.filter_eq_nil_iff]
  intro t _
  simp

theorem count_lt_eq_count_le (ts : List Nat) (h h' : Nat) (hs' : List Nat)
    (hpair : List.Pairwise (· < ·) (h :: h' :: hs'))
    (hB : ∀ t ∈ ts, t ∈ h :: h' :: hs' ∨ ∀ x ∈ h :: h' :: hs', t < x) :
    count_lt ts h' = count_le ts h := by
  have hhh' : h < h' := (List.pairwise_cons.mp hpair).1 h' (by simp)
  unfold count_le count_lt
  congr 1
  apply List.filter_congr
  intro t ht
  simp only [decide_eq_decide]
  constructor
  · intro hlt
    rcases hB t ht with hmem | hall
    · rcases List.mem_cons.mp hmem with rfl | hmem2
      · exact le_refl t
      · rcases List.mem_cons.mp hmem2 with rfl | hmem3
        · omega
        · have : h' < t :=
            (List.pairwise_cons.mp (List.pairwise_cons.mp hpair).2).1 t hmem3
          omega
    · have := hall h (by simp)
      omega
  · intro hle
    omega

/-- Behaviour of the filling loop: every grid hour `h` receives the sparse
price at index `min (ps.length - 1) (count_le ts h)` — the loop advances one
sparse point early, so the hour of the `k`-th sparse timestamp already
carries the `(k+1)`-st price. -/
theorem fill_go (ps : List ℚ) (ts : List Nat)
    (hts : List.Pairwise (· < ·) ts) (hL : 1 ≤ ps.length) :
    ∀ (g : List Nat) (ct : Nat),
      List.Pairwise (· < ·) g →
      (∀ t ∈ ts, t ∈ g ∨ ∀ x ∈ g, t < x) →
      (∀ h hs, g = h :: hs → ct = min (ps.length - 1) (count_lt ts h)) →
      fill_prices ps ts ct g =
        g.map (fun h => ps.getD (min (ps.length - 1) (count_le ts h)) 0) := by
  intro g
  induction g with
  | nil => intro ct _ _ _; rfl
  | cons h hs ih =>
    intro ct hpair hB hct
    have hcth := hct h hs rfl
    have hpair2 : List.Pairwise (· < ·) hs := (List.pairwise_cons.mp hpair).2
    have hBtail : ∀ t ∈ ts, t ∈ hs ∨ ∀ x ∈ hs, t < x := by
      intro t ht
      rcases hB t ht with hmem | hall
      · rcases List.mem_cons.mp hmem with rfl | hmem2
        · right
          intro x hx
          exact (List.pairwise_cons.mp hpair).1 x hx
        · left
          exact hmem2
      · right
        intro x hx
        exact hall x (List.mem_cons_of_mem h hx)
    have htransfer : ∀ h' hs', hs = h' :: hs' → count_lt ts h' = count_le ts h := by
      intro h' hs' heq
      subst heq
      exact count_lt_eq_count_le ts h h' hs' hpair hB
    simp only [List.map_cons]
    by_cases hmem : h ∈ ts
    · have hle := count_le_of_mem ts h hts hmem
      by_cases hctl : ct = ps.length - 1
      · simp only [fill_prices, if_pos hmem, if_pos hctl]
        have hidx : ct = min (ps.length - 1) (count_le ts h) := by omega
        rw [← hidx]
        congr 1
        apply ih ct hpair2 hBtail
        intro h' hs' heq
        rw [htransfer h' hs' heq]
        omega
      · simp only [fill_prices, if_pos hmem, if_neg hctl]
        have hidx : ct + 1 = min (ps.length - 1) (count_le ts h) := by omega
        rw [← hidx]
        congr 1
        apply ih (ct + 1) hpair2 hBtail
        intro h' hs' heq
        rw [htransfer h' hs' heq]
        omega
    · have hle := count_le_of_not_mem ts h hmem
      simp only [fill_prices, if_neg hmem]
      have hidx : ct = min (ps.length - 1) (count_le ts h) := by omega
      rw [← hidx]
      congr 1
      apply ih ct hpair2 hBtail
      intro h' hs' heq
      rw [htransfer h' hs' heq]
      omega

/-! ### Claim C7: the densified hourly wholesale series (corrected) -/

/-- Counterexample to claim C7 as stated: with sparse points `(0, 10)` and
`(2, 20)`, hour 0 is itself a sparse timestamp whose price is 10 — the most
recent sparse point at or before hour 0 — yet the produced hourly series
carries 20 at hour 0, because the loop advances to the next sparse price on
every merge hit. -/
theorem wholesale_off_by_one_cex :
    (get_wholesale_prices [(0, 10), (2, 20)]).getD 0 (0, 0) = (0, 20) ∧
    lookup_time 0 [(0, 10), (2, 20)] = some 10 ∧ (20 : ℚ) ≠ 10 := by
  refine ⟨?_, ?_, by norm_num⟩
  · with_unfolding_all rfl
  · with_unfolding_all rfl

/-- Claim C7 (amended): for a non-empty sparse wholesale series with
strictly increasing timestamps on the hourly grid, the densified hourly
series pairs every grid hour `h` with the sparse price at index
`min (m - 1) (count_le ts h)` (`m` sparse points, `count_le ts h` of them at
or before `h`): hours before the first sparse timestamp carry the first
price, each sparse timestamp switches the series to the *next* sparse price
one point early, and the last price is held from the second-to-last sparse
timestamp through the end of the year. -/
theorem get_wholesale_prices_spec (sparse : Series)
    (hts : List.Pairwise (· < ·) (sparse.map Prod.fst))
    (hmem : ∀ t ∈ sparse.map Prod.fst, t < 8760)
    (hne : sparse ≠ []) :
    get_wholesale_prices sparse =
      hour_grid.map (fun h =>
        (h, (sparse.map Prod.snd).getD
          (min ((sparse.map Prod.snd).length - 1)
            (count_le (sparse.map Prod.fst) h)) 0)) := by
  have hL : 1 ≤ (sparse.map Prod.snd).length := by
    rw [List.length_map]
    cases sparse with
    | nil => exact absurd rfl hne
    | cons a l => simp
  have hgrid_pair : List.Pairwise (· < ·) hour_grid := List.pairwise_lt_range' 0 8760
  have hB : ∀ t ∈ sparse.map Prod.fst, t ∈ hour_grid ∨ ∀ x ∈ hour_grid, t < x := by
    intro t ht
    left
    unfold hour_grid
    rw [List.mem_range'_1]
    exact ⟨Nat.zero_le t, by simpa using hmem t ht⟩
  have hct0 : ∀ h hs, hour_grid = h :: hs →
      0 = min ((sparse.map Prod.snd).length - 1) (count_lt (sparse.map Prod.fst) h) := by
    intro h hs heq
    have hgrid : hour_grid = 0 :: List.range' 1 8759 := rfl
    rw [hgrid] at heq
    injection heq with h1 _
    rw [← h1, count_lt_zero, Nat.min_zero]
  have hfill := fill_go (sparse.map Prod.snd) (sparse.map Prod.fst) hts hL hour_grid 0
    hgrid_pair hB hct0
  simp only [get_wholesale_prices]
  rw [hfill]
  calc List.zip hour_grid (hour_grid.map (fun h =>
        (sparse.map Prod.snd).getD (min ((sparse.map Prod.snd).length - 1)
          (count_le (sparse.map Prod.fst) h)) 0))
      = List.zip (hour_grid.map id) (hour_grid.map (fun h =>
          (sparse.map Prod.snd).getD (min ((sparse.map Prod.snd).length - 1)
            (count_le (sparse.map Prod.fst) h)) 0)) := by rw [List.map_id]
    _ = hour_grid.map (fun h => (id h, (sparse.map Prod.snd).getD
          (min ((sparse.map Prod.snd).length - 1)
            (count_le (sparse.map Prod.fst) h)) 0)) := List.zip_map' _ _ _
    _ = _ := rfl

/-- Witness for the amended C7 at the sparse series `[(2, 5), (4, 7)]`. -/
theorem get_wholesale_prices_spec_witness :
    get_wholesale_prices [(2, 5), (4, 7)] =
      hour_grid.map (fun h =>
        (h, (([(2, 5), (4, 7)] : Series).map Prod.snd).getD
          (min ((([(2, 5), (4, 7)] : Series).map Prod.snd).length - 1)
            (count_le (([(2, 5), (4, 7)] : Series).map Prod.fst) h)) 0)) :=
  get_wholesale_prices_spec [(2, 5), (4, 7)]
    (by simp [List.pairwise_cons]) (by decide) (by decide)

/-! ### Region construction from `solarModel.py` -/

/-- `Region.get_utility_prices`: the constant retail rate broadcast over the
hourly grid. -/
def get_utility_prices (utility_price : ℚ) : Series :=
  hour_grid.map (fun t => (t, utility_price))

/-- `Region.get_fixed_prices`: the monthly fixed charge converted to an
hourly total across all households and broadcast over the hourly grid. -/
def get_fixed_prices (fixed_price_mo : ℚ) (num_houses : Nat) : Series :=
  let fixed_price_hr := fixed_price_mo * 12 / 365
  let total_fixed_price := fixed_price_hr * (num_houses : ℚ)
  hour_grid.map (fun t => (t, total_fixed_price))

/-- The dataframe built by `Region.get_region_data`: time and price columns,
the summed demand column and the profit column. -/
structure RegionData where
  times : List Nat
  wholesale_prices : List ℚ
  utility_prices : List ℚ
  fixed_prices : List ℚ
  total_demand : List ℚ
  profit : List ℚ
deriving DecidableEq

/-- `Region.get_region_data`.  `np.zeros(len(region_data))` is modelled as a
zero per dataframe row (`times.map (fun _ => 0)`), the numpy accumulation of
house demands as positional addition, the wholesale rescale to $/kWh as
division by 1000, and the net-profit formula columnwise. -/
def get_region_data (wholesale utility fixed : Series) (households : List House) :
    RegionData :=
  let times := wholesale.map Prod.fst
  let utility_col := utility.map Prod.snd
  let fixed_col := fixed.map Prod.snd
  let total_demand := households.foldl
    (fun acc h => List.zipWith (· + ·) acc (h.elec_demand.map Prod.snd))
    (times.map (fun _ => (0 : ℚ)))
  let wholesale_col := (wholesale.map Prod.snd).map (· / 1000)
  let profit := List.zipWith (fun td x => td * x.1 + x.2) total_demand
    (List.zip (List.zipWith (· - ·) utility_col wholesale_col) fixed_col)
  ⟨times, wholesale_col, utility_col, fixed_col, total_demand, profit⟩

/-- A fully constructed Region with its retained annual scalars. -/
structure Region where
  num_houses : Nat
  solar_pen : ℚ
  usage_data : Series
  wholesale_prices : Series
  utility_prices : Series
  fixed_prices : Series
  households : List House
  region_data : RegionData
  annual_profit : ℚ
  annual_demand : ℚ
  utility_price : ℚ
deriving DecidableEq

/-- Parsed contents of the external reference files (census, usage, wholesale,
utility-rate and solar-production data); the CSV mechanics themselves are
outside the embedded core. -/
structure RefData where
  census_households : String → Option ℚ
  usage_file : String → Series
  wholesale_file : String → Series
  utility_rate : ℚ × ℚ → Option ℚ
  fixed_rate : ℚ × ℚ → Option ℚ
  solar_prod : Series

/-- The literal dictionary in `Region.get_num_houses` mapping TMY3 station
coordinates to census cities. -/
def census_loc_table : List ((ℚ × ℚ) × String) :=
  [((40.5, -80.233), "pittsburgh"), ((38.867, -77.033), "washington dc")]

/-- The literal dictionary in `Region.get_usage_data` mapping TMY3 station
coordinates to usage data files. -/
def usage_loc_table : List ((ℚ × ℚ) × String) :=
  [((40.5, -80.233), "USA_PA_Pittsburgh-Allegheny.County.AP.725205_TMY3_BASE.csv"),
   ((38.867, -77.033), "USA_VA_Arlington-Ronald.Reagan.Washington.Natl.AP.724050_TMY3_BASE.csv")]

/-- The literal dictionary in `Region.get_wholesale_prices` mapping the TMY3
station to its wholesale supplier. -/
def wholesale_loc_table : List ((ℚ × ℚ) × String) :=
  [((40.5, -80.233), "PJM WH Real Time Peak")]

/-- Python `dict[key]`: `some` value on a hit, `none` (a `KeyError`) on a
miss. -/
def dict_get {α : Type} : List ((ℚ × ℚ) × α) → (ℚ × ℚ) → Option α
  | [], _ => none
  | (k, v) :: rest, loc => if k = loc then some v else dict_get rest loc

/-- `Region.get_num_houses`: resolves the city for the location and its
census row, then returns the hard-coded test override of 100 households
(the resolved census count is discarded by the source). -/
def get_num_houses (rd : RefData) (loc : ℚ × ℚ) : Except String Nat :=
  match dict_get census_loc_table loc with
  | none => Except.error "KeyError: location not in the census station table"
  | some city =>
    match rd.census_households city with
    | none => Except.error "IndexError: no census row for the city"
    | some _households => Except.ok 100

/-- `Region.get_usage_data`: resolves the usage file for the location; the
date normalisation and channel summing are file-parsing mechanics, so the
file is modelled as the resulting hourly `(time, usage)` series. -/
def get_usage_data (rd : RefData) (loc : ℚ × ℚ) : Except String Series :=
  match dict_get usage_loc_table loc with
  | none => Except.error "KeyError: location not in the usage file table"
  | some filename => Except.ok (rd.usage_file filename)

/-- The fallible outer part of `Region.get_wholesale_prices`: resolve the
supplier, then densify its sparse series over the hourly grid. -/
def region_wholesale_prices (rd : RefData) (loc : ℚ × ℚ) : Except String Series :=
  match dict_get wholesale_loc_table loc with
  | none => Except.error "KeyError: location not in the wholesale supplier table"
  | some supplier => Except.ok (get_wholesale_prices (rd.wholesale_file supplier))

/-- The fallible outer part of `Region.get_utility_prices`: resolve the rate
row (`.iloc[0]` on an empty selection raises). -/
def region_utility_prices (rd : RefData) (loc : ℚ × ℚ) : Except String Series :=
  match rd.utility_rate loc with
  | none => Except.error "IndexError: no utility rate row for the location"
  | some utility_price => Except.ok (get_utility_prices utility_price)

/-- The fallible outer part of `Region.get_fixed_prices`. -/
def region_fixed_prices (rd : RefData) (loc : ℚ × ℚ) (num_houses : Nat) :
    Except String Series :=
  match rd.fixed_rate loc with
  | none => Except.error "IndexError: no fixed rate row for the location"
  | some fixed_price_mo => Except.ok (get_fixed_prices fixed_price_mo num_houses)

/-- The pure tail of `Region.__init__` once every lookup has resolved:
construct the households, assemble the region dataframe and retain the
annual scalars. -/
def region_build (num_houses : Nat) (solar_pen : ℚ)
    (usage_data wholesale_prices utility_prices fixed_prices elec_prod : Series) : Region :=
  let households := create_households num_houses solar_pen usage_data elec_prod
  let region_data := get_region_data wholesale_prices utility_prices fixed_prices households
  ⟨num_houses, solar_pen, usage_data, wholesale_prices, utility_prices, fixed_prices,
    households, region_data, region_data.profit.sum, region_data.total_demand.sum,
    region_data.utility_prices.getD 0 0⟩

/-- `Region.__init__`: each resolution step may raise; the first failure
propagates to the caller. -/
def region_init (rd : RefData) (loc : ℚ × ℚ) (solar_pen : ℚ) : Except String Region :=
  match get_num_houses rd loc with
  | Except.error e => Except.error e
  | Except.ok num_houses =>
    match get_usage_data rd loc with
    | Except.error e => Except.error e
    | Except.ok usage_data =>
      match region_wholesale_prices rd loc with
      | Except.error e => Except.error e
      | Except.ok wholesale_prices =>
        match region_utility_prices rd loc with
        | Except.error e => Except.error e
        | Except.ok utility_prices =>
          match region_fixed_prices rd loc num_houses with
          | Except.error e => Except.error e
          | Except.ok fixed_prices =>
            Except.ok (region_build num_houses solar_pen usage_data wholesale_prices
              utility_prices fixed_prices rd.solar_prod)

/-! ### Positional facts about the region dataframe -/

theorem foldl_zipWith_length : ∀ (ds : List (List ℚ)) (acc : List ℚ),
    (ds.foldl (fun a d => List.zipWith (· + ·) a d) acc).length ≤ acc.length := by
  intro ds
  induction ds with
  | nil => intro acc; exact le_refl _
  | cons d ds ih =>
    intro acc
    calc (List.foldl (fun a d => List.zipWith (· + ·) a d)
            (List.zipWith (· + ·) acc d) ds).length
        ≤ (List.zipWith (· + ·) acc d).length := ih _
      _ ≤ acc.length := by
          rw [List.length_zipWith]
          omega

theorem foldl_zipWith_getD : ∀ (ds : List (List ℚ)) (acc : List ℚ) (i : Nat),
    i < (ds.foldl (fun a d => List.zipWith (· + ·) a d) acc).length →
    (ds.foldl (fun a d => List.zipWith (· + ·) a d) acc).getD i 0
      = acc.getD i 0 + (ds.map (fun d => d.getD i 0)).sum := by
  intro ds
  induction ds with
  | nil =>
    intro acc i _
    simp
  | cons d ds ih =>
    intro acc i hi
    simp only [List.foldl_cons] at hi ⊢
    have hacc : i < (List.zipWith (· + ·) acc d).length :=
      lt_of_lt_of_le hi (foldl_zipWith_length ds _)
    rw [ih _ i hi, getD_zipWith (· + ·) 0 0 0 acc d i hacc]
    simp only [List.map_cons, List.sum_cons]
    ring

theorem getD_map_zero (l : List Nat) (t : Nat) :
    (l.map (fun _ => (0 : ℚ))).getD t 0 = 0 := by
  rcases Nat.lt_or_ge t l.length with h | h
  · exact getD_map (fun _ => (0 : ℚ)) 0 0 l t h
  · exact List.getD_eq_default _ _ (by simpa using h)

theorem get_region_data_profit (wholesale utility fixed : Series)
    (households : List House) (t : Nat)
    (ht : t < (get_region_data wholesale utility fixed households).profit.length) :
    (get_region_data wholesale utility fixed households).profit.getD t 0 =
      (get_region_data wholesale utility fixed households).total_demand.getD t 0 *
        ((get_region_data wholesale utility fixed households).utility_prices.getD t 0 -
          (get_region_data wholesale utility fixed households).wholesale_prices.getD t 0)
      + (get_region_data wholesale utility fixed households).fixed_prices.getD t 0 := by
  simp only [get_region_data] at ht ⊢
  have hlens := ht
  rw [List.length_zipWith, List.length_zip, List.length_zipWith] at hlens
  rw [getD_zipWith (fun td x => td * x.1 + x.2) 0 ((0 : ℚ), (0 : ℚ)) 0 _ _ t ht]
  rw [getD_zip 0 0 _ _ t (by rw [List.length_zip, List.length_zipWith]; omega)]
  rw [getD_zipWith (· - ·) 0 0 0 _ _ t (by rw [List.length_zipWith]; omega)]

theorem get_region_data_total_demand (wholesale utility fixed : Series)
    (households : List House) (t : Nat)
    (ht : t < (get_region_data wholesale utility fixed households).total_demand.length) :
    (get_region_data wholesale utility fixed households).total_demand.getD t 0 =
      (households.map (fun h => (h.elec_demand.map Prod.snd).getD t 0)).sum := by
  simp only [get_region_data] at ht ⊢
  rw [← List.foldl_map (fun h : House => h.elec_demand.map Prod.snd)
    (fun a d => List.zipWith (· + ·) a d)] at ht ⊢
  rw [foldl_zipWith_getD _ _ t ht, getD_map_zero, zero_add, List.map_map]
  rfl

theorem get_region_data_wholesale (wholesale utility fixed : Series)
    (households : List House) (t : Nat)
    (ht : t < (get_region_data wholesale utility fixed households).wholesale_prices.length) :
    (get_region_data wholesale utility fixed households).wholesale_prices.getD t 0 =
      (wholesale.map Prod.snd).getD t 0 / 1000 := by
  simp only [get_region_data] at ht ⊢
  rw [List.length_map] at ht
  exact getD_map (· / 1000) 0 0 _ t ht

/-! ### Claim C1: the hourly profit series and the annual scalars -/

/-- Claim C1: for every successfully constructed Region at a penetration in
`[0,1]`, the profit column satisfies
`profit[t] = total_demand[t] * (utility[t] - wholesale[t]) + fixed[t]` with
the stored wholesale column already rescaled by 1/1000 from the raw hourly
series, the total-demand column is the pointwise sum of all households' net
demands, and the retained annual scalars are the column sums. -/
theorem region_profit_formula (rd : RefData) (loc : ℚ × ℚ) (solar_pen : ℚ) (r : Region)
    (hp0 : 0 ≤ solar_pen) (hp1 : solar_pen ≤ 1)
    (hr : region_init rd loc solar_pen = Except.ok r) :
    (∀ t, t < r.region_data.profit.length →
      r.region_data.profit.getD t 0 =
        r.region_data.total_demand.getD t 0 *
          (r.region_data.utility_prices.getD t 0 - r.region_data.wholesale_prices.getD t 0)
        + r.region_data.fixed_prices.getD t 0) ∧
    (∀ t, t < r.region_data.wholesale_prices.length →
      r.region_data.wholesale_prices.getD t 0 =
        (r.wholesale_prices.map Prod.snd).getD t 0 / 1000) ∧
    (∀ t, t < r.region_data.total_demand.length →
      r.region_data.total_demand.getD t 0 =
        (r.households.map (fun h => (h.elec_demand.map Prod.snd).getD t 0)).sum) ∧
    r.annual_profit = r.region_data.profit.sum ∧
    r.annual_demand = r.region_data.total_demand.sum := by
  unfold region_init at hr
  split at hr
  · exact Except.noConfusion hr
  · split at hr
    · exact Except.noConfusion hr
    · split at hr
      · exact Except.noConfusion hr
      · split at hr
        · exact Except.noConfusion hr
        · split at hr
          · exact Except.noConfusion hr
          · injection hr with hr'
            subst hr'
            refine ⟨?_, ?_, ?_, rfl, rfl⟩
            · intro t ht
              exact get_region_data_profit _ _ _ _ t ht
            · intro t ht
              exact get_region_data_wholesale _ _ _ _ t ht
            · intro t ht
              exact get_region_data_total_demand _ _ _ _ t ht

/-- Concrete reference snapshot for the witnesses: a single usage row of
value 2, one sparse wholesale point of 500 $/MWh, unit retail rate and a
monthly fixed charge of 73/12 $/mo (an hourly total of 1/5 per household). -/
def rd0 : RefData where
  census_households := fun c => if c = "pittsburgh" then some 200 else none
  usage_file := fun _ => [(0, 2)]
  wholesale_file := fun _ => [(0, 500)]
  utility_rate := fun l => if l = (40.5, -80.233) then some 1 else none
  fixed_rate := fun l => if l = (40.5, -80.233) then some (73 / 12) else none
  solar_prod := [(0, 1)]

/-- The Pittsburgh location key. -/
def loc0 : ℚ × ℚ := (40.5, -80.233)

theorem dict_get_census_loc0 : dict_get census_loc_table loc0 = some "pittsburgh" := by
  unfold census_loc_table loc0
  simp only [dict_get]
  rfl

theorem dict_get_usage_loc0 : dict_get usage_loc_table loc0 =
    some "USA_PA_Pittsburgh-Allegheny.County.AP.725205_TMY3_BASE.csv" := by
  unfold usage_loc_table loc0
  simp only [dict_get]
  rfl

theorem dict_get_wholesale_loc0 : dict_get wholesale_loc_table loc0 =
    some "PJM WH Real Time Peak" := by
  unfold wholesale_loc_table loc0
  simp only [dict_get]
  rfl

theorem get_num_houses_rd0 : get_num_houses rd0 loc0 = Except.ok 100 := by
  unfold get_num_houses
  rw [dict_get_census_loc0]
  simp only [rd0]
  rfl

theorem get_usage_data_rd0 : get_usage_data rd0 loc0 = Except.ok [(0, 2)] := by
  unfold get_usage_data
  rw [dict_get_usage_loc0]
  rfl

theorem region_wholesale_rd0 : region_wholesale_prices rd0 loc0 =
    Except.ok (get_wholesale_prices [(0, 500)]) := by
  unfold region_wholesale_prices
  rw [dict_get_wholesale_loc0]
  rfl

theorem region_utility_rd0 : region_utility_prices rd0 loc0 =
    Except.ok (get_utility_prices 1) := by
  unfold region_utility_prices loc0
  simp only [rd0]
  rfl

theorem region_fixed_rd0 : region_fixed_prices rd0 loc0 100 =
    Except.ok (get_fixed_prices (73 / 12) 100) := by
  unfold region_fixed_prices loc0
  simp only [rd0]
  rfl

/-- The Region that `rd0` constructs at any penetration `p` (its lookups do
not depend on the penetration). -/
theorem region_init_rd0 (p : ℚ) : region_init rd0 loc0 p =
    Except.ok (region_build 100 p [(0, 2)] (get_wholesale_prices [(0, 500)])
      (get_utility_prices 1) (get_fixed_prices (73 / 12) 100) [(0, 1)]) := by
  unfold region_init
  simp only [get_num_houses_rd0, get_usage_data_rd0, region_wholesale_rd0,
    region_utility_rd0, region_fixed_rd0]
  rfl

/-- The Region the snapshot `rd0` constructs at zero penetration. -/
def r0 : Region :=
  region_build 100 0 [(0, 2)] (get_wholesale_prices [(0, 500)])
    (get_utility_prices 1) (get_fixed_prices (73 / 12) 100) [(0, 1)]

/-- Witness for C1 on the concrete snapshot, showing the profit formula at
hour 0. -/
theorem region_profit_formula_witness :
    region_init rd0 loc0 0 = Except.ok r0 ∧
    r0.region_data.profit.getD 0 0 =
      r0.region_data.total_demand.getD 0 0 *
        (r0.region_data.utility_prices.getD 0 0 - r0.region_data.wholesale_prices.getD 0 0)
      + r0.region_data.fixed_prices.getD 0 0 :=
  have hok : region_init rd0 loc0 0 = Except.ok r0 := region_init_rd0 0
  ⟨hok, (region_profit_formula rd0 loc0 0 r0 (le_refl 0) (by norm_num) hok).1 0
    (by with_unfolding_all decide)⟩

/-! ### Claim C9: unresolvable locations abort Region construction -/

/-- Claim C9: a location that fails to resolve in any reference table makes
Region construction fail with a surfaced lookup error (`KeyError` or
`IndexError`, both `LookupError` kinds), never a silently defaulted Region. -/
theorem region_init_unresolved_loc (rd : RefData) (loc : ℚ × ℚ) (solar_pen : ℚ)
    (h : dict_get census_loc_table loc = none ∨ dict_get usage_loc_table loc = none ∨
      dict_get wholesale_loc_table loc = none ∨ rd.utility_rate loc = none ∨
      rd.fixed_rate loc = none) :
    ∃ e, region_init rd loc solar_pen = Except.error e := by
  cases hc : dict_get census_loc_table loc with
  | none =>
    exact ⟨"KeyError: location not in the census station table",
      by simp [region_init, get_num_houses, hc]⟩
  | some city =>
    cases hh : rd.census_households city with
    | none =>
      exact ⟨"IndexError: no census row for the city",
        by simp [region_init, get_num_houses, hc, hh]⟩
    | some hhv =>
      cases hu : dict_get usage_loc_table loc with
      | none =>
        exact ⟨"KeyError: location not in the usage file table",
          by simp [region_init, get_num_houses, get_usage_data, hc, hh, hu]⟩
      | some fname =>
        cases hw : dict_get wholesale_loc_table loc with
        | none =>
          exact ⟨"KeyError: location not in the wholesale supplier table",
            by simp [region_init, get_num_houses, get_usage_data,
              region_wholesale_prices, hc, hh, hu, hw]⟩
        | some supplier =>
          cases hur : rd.utility_rate loc with
          | none =>
            exact ⟨"IndexError: no utility rate row for the location",
              by simp [region_init, get_num_houses, get_usage_data,
                region_wholesale_prices, region_utility_prices, hc, hh, hu, hw, hur]⟩
          | some uprice =>
            cases hfr : rd.fixed_rate loc with
            | none =>
              exact ⟨"IndexError: no fixed rate row for the location",
                by simp [region_init, get_num_houses, get_usage_data,
                  region_wholesale_prices, region_utility_prices, region_fixed_prices,
                  hc, hh, hu, hw, hur, hfr]⟩
            | some fprice =>
              exfalso
              rcases h with h | h | h | h | h
              · rw [h] at hc; exact Option.noConfusion hc
              · rw [h] at hu; exact Option.noConfusion hu
              · rw [h] at hw; exact Option.noConfusion hw
              · rw [h] at hur; exact Option.noConfusion hur
              · rw [h] at hfr; exact Option.noConfusion hfr

/-- Witness for C9: the origin coordinates resolve in no reference table, so
Region construction errors there. -/
theorem region_init_unresolved_loc_witness :
    ∃ e, region_init rd0 (0, 0) 0 = Except.error e :=
  region_init_unresolved_loc rd0 (0, 0) 0
    (Or.inl (by
      unfold census_loc_table
      simp only [dict_get]
      rw [if_neg (by norm_num), if_neg (by norm_num)]))

/-! ### The simulation pipeline from `sim.py` -/

/-- `simulation_data` from `sim.py`: one Region per penetration entry,
collecting the year index, annual profit, household count, (unrounded) solar
household count, annual demand and utility price; a failed Region
construction aborts the run. -/
def simulation_rows (rd : RefData) (loc : ℚ × ℚ) : Nat → List ℚ → Except String SimTable
  | _, [] => Except.ok ⟨[], [], [], [], [], []⟩
  | year, solar_pen :: pens =>
    match region_init rd loc solar_pen with
    | Except.error e => Except.error e
    | Except.ok region =>
      match simulation_rows rd loc (year + 1) pens with
      | Except.error e => Except.error e
      | Except.ok rest =>
        Except.ok ⟨(year : ℚ) :: rest.year, region.annual_profit :: rest.profit,
          (region.num_houses : ℚ) :: rest.number_houses,
          ((region.num_houses : ℚ) * solar_pen) :: rest.solar_houses,
          region.annual_demand :: rest.demand,
          region.utility_price :: rest.price⟩

/-- `simulation_data` starts the year counter at 0. -/
def simulation_data (rd : RefData) (loc : ℚ × ℚ) (pen_list : List ℚ) :
    Except String SimTable :=
  simulation_rows rd loc 0 pen_list

/-- The full `sim.py` pipeline after argument parsing: penetration schedule,
per-year simulation and impact calculation. -/
def run_pipeline (rd : RefData) (loc : ℚ × ℚ) (ssa_i ssa_t : ℚ) (time_horizon : Nat) :
    Except String ImpactTable :=
  match simulation_data rd loc (annual_penetration ssa_i ssa_t time_horizon) with
  | Except.error e => Except.error e
  | Except.ok time_data => Except.ok (calculate_impact time_data)

theorem ssa_to_solar_pen_zero : ssa_to_solar_pen 0 = 0 := by
  simp [ssa_to_solar_pen]

theorem annual_penetration_zero (T : Nat) :
    annual_penetration 0 0 T = List.replicate (T + 1) (0 : ℚ) := by
  simp only [annual_penetration, ssa_to_solar_pen_zero]
  calc (List.range (T + 1)).map (fun (y : Nat) => (0 - 0 : ℚ) / (T : ℚ) * (y : ℚ) + 0)
      = (List.range (T + 1)).map (fun _ => (0 : ℚ)) :=
        List.map_congr_left (fun y _ => by norm_num)
    _ = List.replicate (T + 1) 0 := by rw [List.map_const', List.length_range]

theorem get_num_houses_ok (rd : RefData) (loc : ℚ × ℚ) (nh : Nat)
    (h : get_num_houses rd loc = Except.ok nh) : nh = 100 := by
  unfold get_num_houses at h
  split at h
  · exact Except.noConfusion h
  · split at h
    · exact Except.noConfusion h
    · injection h with h'
      exact h'.symm

theorem region_init_num_houses (rd : RefData) (loc : ℚ × ℚ) (p : ℚ) (r : Region)
    (h : region_init rd loc p = Except.ok r) : r.num_houses = 100 := by
  unfold region_init at h
  split at h
  · exact Except.noConfusion h
  · rename_i nh hnum
    split at h
    · exact Except.noConfusion h
    · split at h
      · exact Except.noConfusion h
      · split at h
        · exact Except.noConfusion h
        · split at h
          · exact Except.noConfusion h
          · injection h with h'
            subst h'
            exact get_num_houses_ok rd loc nh hnum

/-- Simulating a constant penetration schedule repeats one Region's scalars
down every column. -/
theorem simulation_rows_replicate (rd : RefData) (loc : ℚ × ℚ) (p : ℚ) (r : Region)
    (hr : region_init rd loc p = Except.ok r) :
    ∀ (n y : Nat), ∃ tb, simulation_rows rd loc y (List.replicate n p) = Except.ok tb ∧
      tb.profit = List.replicate n r.annual_profit ∧
      tb.number_houses = List.replicate n ((r.num_houses : ℚ)) ∧
      tb.solar_houses = List.replicate n ((r.num_houses : ℚ) * p) ∧
      tb.demand = List.replicate n r.annual_demand ∧
      tb.price = List.replicate n r.utility_price := by
  intro n
  induction n with
  | zero =>
    intro y
    exact ⟨⟨[], [], [], [], [], []⟩, rfl, rfl, rfl, rfl, rfl, rfl⟩
  | succ n ih =>
    intro y
    obtain ⟨tb, htb, h1, h2, h3, h4, h5⟩ := ih (y + 1)
    refine ⟨⟨(y : ℚ) :: tb.year, r.annual_profit :: tb.profit,
      (r.num_houses : ℚ) :: tb.number_houses,
      ((r.num_houses : ℚ) * p) :: tb.solar_houses,
      r.annual_demand :: tb.demand, r.utility_price :: tb.price⟩, ?_, ?_, ?_, ?_, ?_, ?_⟩
    · rw [List.replicate_succ]
      simp only [simulation_rows, hr, htb]
    · rw [List.replicate_succ, h1]
    · rw [List.replicate_succ, h2]
    · rw [List.replicate_succ, h3]
    · rw [List.replicate_succ, h4]
    · rw [List.replicate_succ, h5]

/-! ### Claim C8: the all-zero set-aside run (corrected) -/

/-- Claim C8 (amended): with `initial_ssa = final_ssa = 0`, every year's
profit equals year 0's, so `fixed_increase_all_houses` and
`variable_increase` are rows of zeros (their denominators — the household
count 100, the annual demand and the utility price — being nonzero), but
`fixed_increase_solar_houses` is a row of undefined markers: zero
penetration makes every year's solar-house count 0 and `0 / 0` is NaN, not
zero. -/
theorem pipeline_zero_ssa_rows (rd : RefData) (loc : ℚ × ℚ) (T : Nat) (tbl : ImpactTable)
    (hT : 1 ≤ T)
    (h : run_pipeline rd loc 0 0 T = Except.ok tbl)
    (hd : ∀ d ∈ tbl.demand, d ≠ 0)
    (hq : ∀ q ∈ tbl.price, q ≠ 0) :
    tbl.fixed_increase_all_houses = List.replicate (T + 1) (some 0) ∧
    tbl.variable_increase = List.replicate (T + 1) (some 0) ∧
    tbl.fixed_increase_solar_houses = List.replicate (T + 1) none := by
  unfold run_pipeline at h
  rw [annual_penetration_zero T] at h
  unfold simulation_data at h
  cases hr : region_init rd loc 0 with
  | error e =>
    rw [List.replicate_succ] at h
    simp only [simulation_rows, hr] at h
    exact Except.noConfusion h
  | ok r =>
    obtain ⟨tb, htb, h1, h2, h3, h4, h5⟩ := simulation_rows_replicate rd loc 0 r hr (T + 1) 0
    rw [htb] at h
    have hok : Except.ok (calculate_impact tb) = Except.ok tbl := h
    injection hok with hok'
    subst hok'
    have hnh : r.num_houses = 100 := region_init_num_houses rd loc 0 r hr
    have hT1 : T + 1 ≠ 0 := Nat.succ_ne_zero T
    have hD : r.annual_demand ≠ 0 := by
      apply hd
      show r.annual_demand ∈ tb.demand
      rw [h4]
      exact List.mem_replicate.mpr ⟨hT1, rfl⟩
    have hU : r.utility_price ≠ 0 := by
      apply hq
      show r.utility_price ∈ tb.price
      rw [h5]
      exact List.mem_replicate.mpr ⟨hT1, rfl⟩
    have hhead : tb.profit.getD 0 0 = r.annual_profit := by
      rw [h1, List.replicate_succ, List.getD_cons_zero]
    have hloss : tb.profit.map (fun q => tb.profit.getD 0 0 - q)
        = List.replicate (T + 1) (0 : ℚ) := by
      rw [hhead, h1, List.map_replicate, sub_self]
    refine ⟨?_, ?_, ?_⟩
    · show (calculate_impact tb).fixed_increase_all_houses = _
      simp only [calculate_impact]
      rw [hloss, h2, hnh, List.zipWith_replicate']
      have : pdiv 0 ((100 : Nat) : ℚ) = some 0 := by
        unfold pdiv
        rw [if_neg (by norm_num), zero_div]
      rw [this]
    · show (calculate_impact tb).variable_increase = _
      simp only [calculate_impact]
      rw [hloss, h4, h5, List.zipWith_replicate']
      have hdd : pdiv 0 r.annual_demand = some 0 := by
        unfold pdiv
        rw [if_neg hD, zero_div]
      rw [hdd, List.zipWith_replicate']
      have huu : Option.bind (some (0 : ℚ)) (fun x => pdiv x r.utility_price) = some 0 := by
        show pdiv 0 r.utility_price = some 0
        unfold pdiv
        rw [if_neg hU, zero_div]
      rw [huu]
    · show (calculate_impact tb).fixed_increase_solar_houses = _
      simp only [calculate_impact]
      rw [hloss, h3, mul_zero, List.zipWith_replicate']
      have : pdiv 0 (0 : ℚ) = none := by
        unfold pdiv
        rw [if_pos rfl]
      rw [this]

/-- The concrete impact table that `rd0` produces over the zero schedule on
horizon 2. -/
def tbl0 : ImpactTable := calculate_impact
  ⟨[0, 1, 2], [120, 120, 120], [100, 100, 100], [0, 0, 0], [200, 200, 200], [1, 1, 1]⟩

theorem run_pipeline_rd0 : run_pipeline rd0 loc0 0 0 2 = Except.ok tbl0 := by
  have hpen : annual_penetration 0 0 2 = [0, 0, 0] := by
    rw [annual_penetration_zero]
    rfl
  unfold run_pipeline simulation_data
  rw [hpen]
  simp only [simulation_rows, region_init_rd0]
  with_unfolding_all rfl

/-- Counterexample to claim C8 as stated: with the zero set-aside schedule
over horizon 2, the produced `fixed_increase_solar_houses` row is entirely
the undefined marker (every year has zero solar houses, so its denominator
is 0), hence the row does not contain only zeros. -/
theorem pipeline_zero_ssa_cex :
    Except.map (fun t => t.fixed_increase_solar_houses) (run_pipeline rd0 loc0 0 0 2)
      = Except.ok [none, none, none] ∧ (none : Option ℚ) ≠ some 0 := by
  constructor
  · rw [run_pipeline_rd0]
    simp only [Except.map]
    with_unfolding_all rfl
  · simp

/-- Witness for the amended C8 at the concrete snapshot `rd0`. -/
theorem pipeline_zero_ssa_rows_witness :
    tbl0.fixed_increase_all_houses = List.replicate (2 + 1) (some 0) ∧
    tbl0.variable_increase = List.replicate (2 + 1) (some 0) ∧
    tbl0.fixed_increase_solar_houses = List.replicate (2 + 1) none :=
  pipeline_zero_ssa_rows rd0 loc0 2 tbl0 (by norm_num) run_pipeline_rd0
    (by with_unfolding_all decide) (by with_unfolding_all decide)

/-! ### Object-level view of House construction (aliasing and mutation) -/

/-- A pandas dataframe as a heap object: its column labels and its rows. -/
structure DataFrame where
  cols : List String
  rows : Series
deriving DecidableEq

/-- The empty dataframe, used as the out-of-range lookup default. -/
def empty_df : DataFrame := ⟨[], []⟩

/-- A House as an object-graph node: its solar flag and the store index of
the dataframe returned by its `get_elec_demand`. -/
structure HouseRef where
  has_solar : Bool
  demand_id : Nat
deriving DecidableEq

/-- `House.__init__` over an explicit store of dataframe objects.  A solar
house allocates a fresh dataframe holding the merged, floored demand; a
non-solar house renames the columns of the shared usage dataframe in place
to `['time', 'elec_demand']` and returns that very object. -/
def house_st (store : List DataFrame) (usage_id : Nat) (has_solar : Bool)
    (elec_prod : Series) : HouseRef × List DataFrame :=
  if has_solar then
    let usage := (store.getD usage_id empty_df).rows
    let demand := get_elec_demand true usage elec_prod
    (⟨true, store.length⟩, store ++ [⟨["time", "elec_demand"], demand⟩])
  else
    let df := store.getD usage_id empty_df
    (⟨false, usage_id⟩, store.set usage_id ⟨["time", "elec_demand"], df.rows⟩)

/-- One house-creation loop of `Region.create_households`, threading the
store through successive House constructions. -/
def houses_loop (has_solar : Bool) (elec_prod : Series) (usage_id : Nat) :
    Nat → List HouseRef × List DataFrame → List HouseRef × List DataFrame
  | 0, st => st
  | n + 1, (houses, store) =>
    let next := house_st store usage_id has_solar elec_prod
    houses_loop has_solar elec_prod usage_id n (houses ++ [next.1], next.2)

/-- `Region.create_households` over the store: the solar loop runs first,
then the non-solar loop, all houses sharing the one usage dataframe. -/
def create_households_st (store : List DataFrame) (usage_id : Nat) (num_houses : Nat)
    (solar_pen : ℚ) (elec_prod : Series) : List HouseRef × List DataFrame :=
  let solar_houses := py_int ((num_houses : ℚ) * solar_pen)
  let after_solar := houses_loop true elec_prod usage_id solar_houses.toNat ([], store)
  houses_loop false elec_prod usage_id ((num_houses : Int) - solar_houses).toNat after_solar

theorem getD_set_self {α : Type} (d a : α) : ∀ (l : List α) (i : Nat), i < l.length →
    (l.set i a).getD i d = a := by
  intro l
  induction l with
  | nil => intro i h; simp at h
  | cons x xs ih =>
    intro i h
    cases i with
    | zero => rfl
    | succ n =>
      simp only [List.set_cons_succ, List.getD_cons_succ]
      exact ih n (by simpa using h)

theorem houses_loop_mem (b : Bool) (elec_prod : Series) (usage_id : Nat) :
    ∀ (n : Nat) (st : List HouseRef × List DataFrame) (hr : HouseRef),
      hr ∈ (houses_loop b elec_prod usage_id n st).1 →
      hr ∈ st.1 ∨ (hr.has_solar = b ∧ (b = false → hr.demand_id = usage_id)) := by
  intro n
  induction n with
  | zero =>
    intro st hr h
    exact Or.inl h
  | succ n ih =>
    intro st hr h
    obtain ⟨houses, store⟩ := st
    simp only [houses_loop] at h
    rcases ih _ hr h with hmem | hprop
    · rcases List.mem_append.mp hmem with h1 | h2
      · exact Or.inl h1
      · right
        have heq : hr = (house_st store usage_id b elec_prod).1 := by
          simpa using h2
        subst heq
        cases b with
        | true => simp [house_st]
        | false => simp [house_st]
    · exact Or.inr hprop

/-! ### Claim C10: the non-solar House aliases and mutates the usage data -/

/-- Claim C10: constructing a non-solar House returns the very usage
dataframe object it was given (the same store index), after renaming that
shared object's columns in place to `["time", "elec_demand"]` while leaving
its row values unchanged (no flooring on the non-solar path); consequently
every non-solar House a Region creates aliases the single shared usage
dataframe, and House construction mutates its caller's data. -/
theorem house_nonsolar_aliasing (store : List DataFrame) (usage_id : Nat)
    (elec_prod : Series) (num_houses : Nat) (solar_pen : ℚ)
    (hlt : usage_id < store.length) :
    (house_st store usage_id false elec_prod).1.demand_id = usage_id ∧
    ((house_st store usage_id false elec_prod).2.getD usage_id empty_df).cols
      = ["time", "elec_demand"] ∧
    ((house_st store usage_id false elec_prod).2.getD usage_id empty_df).rows
      = (store.getD usage_id empty_df).rows ∧
    (house_st store usage_id false elec_prod).2.length = store.length ∧
    ∀ hr ∈ (create_households_st store usage_id num_houses solar_pen elec_prod).1,
      hr.has_solar = false → hr.demand_id = usage_id := by
  refine ⟨rfl, ?_, ?_, ?_, ?_⟩
  · show ((store.set usage_id
        ⟨["time", "elec_demand"], (store.getD usage_id empty_df).rows⟩).getD
          usage_id empty_df).cols = _
    rw [getD_set_self _ _ _ _ hlt]
  · show ((store.set usage_id
        ⟨["time", "elec_demand"], (store.getD usage_id empty_df).rows⟩).getD
          usage_id empty_df).rows = _
    rw [getD_set_self _ _ _ _ hlt]
  · show (store.set usage_id
        ⟨["time", "elec_demand"], (store.getD usage_id empty_df).rows⟩).length = _
    exact List.length_set store _ _
  · intro hr hmem hfalse
    simp only [create_households_st] at hmem
    rcases houses_loop_mem false elec_prod usage_id _ _ hr hmem with hmem2 | hprop
    · rcases houses_loop_mem true elec_prod usage_id _ _ hr hmem2 with hmem3 | hprop2
      · exact absurd hmem3 (List.not_mem_nil hr)
      · rw [hfalse] at hprop2
        exact absurd hprop2.1 Bool.false_ne_true
    · exact hprop.2 rfl

/-- Witness for C10: a one-dataframe store, three houses at penetration 1/3. -/
theorem house_nonsolar_aliasing_witness :
    (house_st [⟨["time", "usage"], [(0, 5)]⟩] 0 false [(0, 2)]).1.demand_id = 0 ∧
    ((house_st [⟨["time", "usage"], [(0, 5)]⟩] 0 false [(0, 2)]).2.getD 0 empty_df).cols
      = ["time", "elec_demand"] ∧
    ((house_st [⟨["time", "usage"], [(0, 5)]⟩] 0 false [(0, 2)]).2.getD 0 empty_df).rows
      = (([⟨["time", "usage"], [(0, 5)]⟩] : List DataFrame).getD 0 empty_df).rows ∧
    (house_st [⟨["time", "usage"], [(0, 5)]⟩] 0 false [(0, 2)]).2.length
      = ([⟨["time", "usage"], [(0, 5)]⟩] : List DataFrame).length ∧
    ∀ hr ∈ (create_households_st [⟨["time", "usage"], [(0, 5)]⟩] 0 3 (1/3) [(0, 2)]).1,
      hr.has_solar = false → hr.demand_id = 0 :=
  house_nonsolar_aliasing [⟨["time", "usage"], [(0, 5)]⟩] 0 [(0, 2)] 3 (1/3) (by decide)

end SolarModel
